import Mathlib

/-
Verification of the Auth/RBAC service contract described by the ERP
functional test suite, together with an embedding of the test-support
code under src/internal/infra/functional (database manager, test
configuration, Redis client wrapper).

The token-engine, authorization-engine and credential-store definitions
are modelled from the specification, because the service implementation
itself is not part of this repository; the infrastructure definitions
(TestConfig, DatabaseManager, RedisClient) are translated from the
Python sources.
-/

namespace ERPSpec

/-! ## Error taxonomy (spec section 7) -/

/-- Modelled from the spec: the error taxonomy of section 7
(InvalidCredentials, InvalidToken, NotFound, AlreadyExists/Conflict,
InvalidArgument, Internal). -/
inductive ErrStatus where
  | invalidCredentials
  | invalidToken
  | notFound
  | alreadyExists
  | invalidArgument
  | internal
deriving DecidableEq, Repr

/-! ## Token Engine data model (spec sections 3, 4.1, 6) -/

/-- Modelled from the spec: the per-user token slot key, the pair
(tenant_id, user_id) that keys both store entries
tokens:tenant:user and refresh_tokens:tenant:user. -/
structure UserKey where
  tenantId : String
  userId : String
deriving DecidableEq, Repr

/-- Modelled from the spec: the session token pair held in a live token
slot (access token and refresh token material). -/
structure TokenPair where
  access : String
  refresh : String
deriving DecidableEq, Repr

/-- Modelled from the spec: the Token Index, a key-value store mapping
(tenant_id, user_id) to the current token pair.  An entry being present
means the slot is live; expiry by TTL is outside this model. -/
abbrev TokenIndex := List (UserKey × TokenPair)

/-- Modelled from the spec: lookup of the live token pair stored for a
key, none when the slot is absent. -/
def lookupSlot (idx : TokenIndex) (k : UserKey) : Option TokenPair :=
  (idx.find? (fun e => decide (e.1 = k))).map (·.2)

/-- Modelled from the spec: storing a pair overwrites any pre-existing
pair for the same (tenant_id, user_id) key (single session per user). -/
def storePair (idx : TokenIndex) (k : UserKey) (p : TokenPair) : TokenIndex :=
  (k, p) :: idx.filter (fun e => decide (e.1 ≠ k))

/-- Modelled from the spec: deletion of the token slot of one user
(both the access and the refresh entry disappear together). -/
def deleteKey (idx : TokenIndex) (k : UserKey) : TokenIndex :=
  idx.filter (fun e => decide (e.1 ≠ k))

/-- Modelled from the spec: Logout(tenant_id, user_id, access_token,
refresh_token) deletes the Token Index entries for the key
unconditionally and returns a fixed human-readable message; the token
arguments do not influence the deletion. -/
def logoutOp (idx : TokenIndex) (k : UserKey)
    (accessToken refreshToken : String) : TokenIndex × String :=
  (deleteKey idx k, "logout successful")

/-- Modelled from the spec: RevokeToken deletes the stored pair for the
identified user and returns true regardless of prior existence. -/
def revokeTokenOp (idx : TokenIndex) (k : UserKey)
    (revokedBy accessToken refreshToken : String) : TokenIndex × Bool :=
  (deleteKey idx k, true)

/-- Modelled from the spec: VerifyToken(tenant_id, token) is valid iff
the token matches the currently stored access token for some
(tenant_id, user_id) key of that tenant. -/
def verifyToken (idx : TokenIndex) (tid tok : String) : Bool :=
  idx.any (fun e => decide (e.1.tenantId = tid ∧ e.2.access = tok))

/-- Modelled from the spec: resolving the owning key of a supplied
refresh token within a tenant (the first Token Index entry of the
tenant whose stored refresh token matches). -/
def findByRefresh (idx : TokenIndex) (tid r : String) : Option UserKey :=
  (idx.find? (fun e => decide (e.1.tenantId = tid ∧ e.2.refresh = r))).map (·.1)

/-- Modelled from the spec: RefreshToken(tenant_id, refresh_token)
resolves the owning key from the supplied refresh token, fails with
InvalidToken when absent or mismatched, and otherwise replaces the
stored pair with a freshly issued pair.  The fresh pair is passed as an
argument because token generation is an opaque effect. -/
def refreshTokenOp (idx : TokenIndex) (tid r : String) (fresh : TokenPair) :
    Option (TokenIndex × TokenPair) :=
  match findByRefresh idx tid r with
  | none => none
  | some k => some (storePair idx k fresh, fresh)

/-- Modelled from the spec: the response of RevokeAllTenantTokens. -/
structure RevokeAllResult where
  index : TokenIndex
  revoked : Bool
  accessRevoked : Nat
  refreshRevoked : Nat
deriving Repr

/-- Modelled from the spec: RevokeAllTenantTokens scans the Token Index
for all keys belonging to the target tenant, deletes them, and returns
the counts of access and refresh tokens removed (one of each per live
slot of the tenant). -/
def revokeAllTenantTokens (idx : TokenIndex) (tid : String) : RevokeAllResult :=
  let targets := idx.filter (fun e => decide (e.1.tenantId = tid))
  { index := idx.filter (fun e => decide (e.1.tenantId ≠ tid))
    revoked := true
    accessRevoked := targets.length
    refreshRevoked := targets.length }

/-! ## Credential Store data model (spec section 3) -/

/-- Modelled from the spec: entity status values. -/
inductive EntityStatus where
  | active
  | inactive
deriving DecidableEq, Repr

/-- Modelled from the spec: role type values. -/
inductive RoleType where
  | system
  | custom
deriving DecidableEq, Repr

/-- Modelled from the spec: a tenant record. -/
structure TenantRec where
  id : String
  name : String
  slug : String
  status : EntityStatus
  createdBy : String
deriving DecidableEq, Repr

/-- Modelled from the spec: one role assignment held by a user. -/
structure RoleAssignment where
  roleId : String
  tenantId : String
  assignedBy : String
deriving DecidableEq, Repr

/-- Modelled from the spec: a user record; the password is stored only
as a hash. -/
structure UserRec where
  id : String
  tenantId : String
  email : String
  username : String
  passwordHash : String
  status : EntityStatus
  emailVerified : Bool
  roles : List RoleAssignment
deriving DecidableEq, Repr

/-- Modelled from the spec: a permission record with its
resource:action permission string; the string "*:*" is the reserved
wildcard. -/
structure PermissionRec where
  id : String
  tenantId : String
  resource : String
  action : String
  permission_string : String
  displayName : String
  description : String
  status : EntityStatus
  isDangerous : Bool
deriving DecidableEq, Repr

/-- Modelled from the spec: a role record holding permission ids. -/
structure RoleRec where
  id : String
  tenantId : String
  name : String
  description : String
  permissions : List String
  status : EntityStatus
  rtype : RoleType
deriving DecidableEq, Repr

/-- Modelled from the spec: the document store with one collection per
entity kind. -/
structure CredDB where
  tenants : List TenantRec
  users : List UserRec
  roles : List RoleRec
  permissions : List PermissionRec
deriving DecidableEq, Repr

/-- Modelled from the spec: the opaque password hash; verification only
ever compares a stored hash with the hash of a supplied password. -/
def hashPassword (password : String) : String :=
  "hashed:" ++ password

/-- Modelled from the spec: password verification against the stored
hash. -/
def passwordMatches (storedHash password : String) : Bool :=
  decide (storedHash = hashPassword password)

/-- Modelled from the spec: user lookup by tenant plus email or
username. -/
def findUserByIdentifier (db : CredDB) (tid ident : String) : Option UserRec :=
  db.users.find? (fun u => decide (u.tenantId = tid ∧ (u.email = ident ∨ u.username = ident)))

/-- Modelled from the spec: Login(tenant_id, account_identifier,
password) verifies the credentials (InvalidCredentials on missing user
or password mismatch), stores the freshly generated pair in the Token
Index under the (tenant_id, user_id) key, overwriting any pre-existing
pair, and returns the pair.  The fresh pair is passed as an argument
because token generation is an opaque effect. -/
def loginOp (db : CredDB) (idx : TokenIndex) (tid ident password : String)
    (fresh : TokenPair) : Except ErrStatus (TokenIndex × TokenPair) :=
  match findUserByIdentifier db tid ident with
  | none => .error .invalidCredentials
  | some u =>
    if passwordMatches u.passwordHash password then
      .ok (storePair idx ⟨tid, u.id⟩ fresh, fresh)
    else
      .error .invalidCredentials

/-! ## Credential Store access layer (spec sections 4.3, 6) -/

/-- Modelled from the spec: GetPermission by id within a target tenant;
fails NotFound when no such record exists in that tenant. -/
def getPermissionOp (s : List PermissionRec) (ttid pid : String) :
    Except ErrStatus PermissionRec :=
  match s.find? (fun r => decide (r.id = pid ∧ r.tenantId = ttid)) with
  | some r => .ok r
  | none => .error .notFound

/-- Modelled from the spec: DeletePermission is a hard delete of the
record with the given id in the target tenant; it reports success. -/
def deletePermissionOp (s : List PermissionRec) (ttid pid : String) :
    List PermissionRec × Bool :=
  (s.filter (fun r => decide (¬(r.id = pid ∧ r.tenantId = ttid))), true)

/-- Modelled from the spec: GetRole by id within a target tenant; fails
NotFound when no such record exists in that tenant. -/
def getRoleOp (s : List RoleRec) (ttid rid : String) :
    Except ErrStatus RoleRec :=
  match s.find? (fun r => decide (r.id = rid ∧ r.tenantId = ttid)) with
  | some r => .ok r
  | none => .error .notFound

/-- Modelled from the spec: DeleteRole is a hard delete of the record
with the given id in the target tenant; it reports success. -/
def deleteRoleOp (s : List RoleRec) (ttid rid : String) :
    List RoleRec × Bool :=
  (s.filter (fun r => decide (¬(r.id = rid ∧ r.tenantId = ttid))), true)

/-- Modelled from the spec: CreatePermission enforces per-tenant
uniqueness of permission_string at write time, failing with the
conflict error AlreadyExists and leaving the store unchanged when a
record with the same (tenant_id, permission_string) already exists;
otherwise it inserts the record under a store-generated fresh id,
passed here as an argument. -/
def createPermissionOp (s : List PermissionRec) (newId : String)
    (p : PermissionRec) : List PermissionRec × Except ErrStatus String :=
  if s.any (fun r =>
      decide (r.tenantId = p.tenantId ∧ r.permission_string = p.permission_string)) then
    (s, .error .alreadyExists)
  else
    ({p with id := newId} :: s, .ok newId)

/-! ## Authorization Engine (spec section 4.2) -/

/-- Modelled from the spec: user lookup by (tenant_id, user_id). -/
def findUserById (db : CredDB) (tid uid : String) : Option UserRec :=
  db.users.find? (fun u => decide (u.tenantId = tid ∧ u.id = uid))

/-- Modelled from the spec: role lookup by id. -/
def findRoleById (db : CredDB) (rid : String) : Option RoleRec :=
  db.roles.find? (fun r => decide (r.id = rid))

/-- Modelled from the spec: the permission strings of one role,
expanded at query time from permission ids to permission records,
keeping only permissions scoped to the target tenant. -/
def rolePermStrings (db : CredDB) (ttid rid : String) : List String :=
  match findRoleById db rid with
  | none => []
  | some r => r.permissions.filterMap (fun pid =>
      (db.permissions.find? (fun p => decide (p.id = pid ∧ p.tenantId = ttid))).map
        (·.permission_string))

/-- Modelled from the spec: the union of the permission strings across
all roles assigned to the user, resolved at query time. -/
def userPermStrings (db : CredDB) (tid uid ttid : String) : List String :=
  match findUserById db tid uid with
  | none => []
  | some u => (u.roles.map (·.roleId)).bind (fun rid => rolePermStrings db ttid rid)

/-- Modelled from the spec: HasPermission is true iff the user holds a
role whose permission set contains that exact string or the reserved
wildcard "*:*", considering only permissions scoped to the target
tenant. -/
def hasPermissionOp (db : CredDB) (tid uid perm ttid : String) : Bool :=
  (userPermStrings db tid uid ttid).any (fun s => decide (s = perm ∨ s = "*:*"))

/-- Modelled from the spec: CheckPermissions answers every requested
permission string with the single-permission check against the
identifier tenant. -/
def checkPermissionsOp (db : CredDB) (tid uid : String) (perms : List String) :
    List (String × Bool) :=
  perms.map (fun q => (q, hasPermissionOp db tid uid q tid))

/-- Modelled from the spec: tenant lookup by id. -/
def lookupTenant (tenants : List TenantRec) (tid : String) : Option TenantRec :=
  tenants.find? (fun t => decide (t.id = tid))

/-- Modelled from the spec: IsSystemTenantUser is true iff the tenant
exists and carries the reserved system tenant name, rather than being
recognised by an id pattern. -/
def isSystemTenantUserOp (systemTenantName : String) (tenants : List TenantRec)
    (tid : String) : Bool :=
  match lookupTenant tenants tid with
  | some t => decide (t.name = systemTenantName)
  | none => false

/-- The configured default tenant name, from
src/internal/infra/functional/config.py (TestConfig.DEFAULT_TENANT_NAME). -/
def defaultTenantName : String := "test_tenant"

/-- The tenant document inserted by SystemSeeder.seed_tenant in
src/internal/infra/functional/seeders/system_seeder.py; the store
assigns the fresh id, passed here as an argument. -/
def seedTenant (newId : String) (tenants : List TenantRec) :
    List TenantRec × String :=
  ({ id := newId, name := defaultTenantName, slug := "test-tenant",
     status := .active, createdBy := "System" } :: tenants, newId)

/-! ## Basic lemmas about the Token Index -/

theorem lookupSlot_deleteKey_self (idx : TokenIndex) (k : UserKey) :
    lookupSlot (deleteKey idx k) k = none := by
  induction idx with
  | nil => rfl
  | cons e tl ih =>
    by_cases h : e.1 = k
    · simpa [deleteKey, List.filter, h] using ih
    · simpa [deleteKey, List.filter, h, lookupSlot, List.find?] using ih

theorem deleteKey_deleteKey (idx : TokenIndex) (k : UserKey) :
    deleteKey (deleteKey idx k) k = deleteKey idx k := by
  simp [deleteKey, List.filter_filter]

theorem deleteKey_storePair (idx : TokenIndex) (k : UserKey) (p : TokenPair) :
    deleteKey (storePair idx k p) k = deleteKey idx k := by
  simp [deleteKey, storePair, List.filter, List.filter_filter]

theorem mem_deleteKey {idx : TokenIndex} {k : UserKey} {e : UserKey × TokenPair}
    (h : e ∈ deleteKey idx k) : e ∈ idx ∧ e.1 ≠ k := by
  simpa [deleteKey, List.mem_filter] using h

theorem verifyToken_eq_false (idx : TokenIndex) (tid tok : String)
    (h : ∀ e ∈ idx, e.1.tenantId ≠ tid ∨ e.2.access ≠ tok) :
    verifyToken idx tid tok = false := by
  simp only [verifyToken, List.any_eq_false, decide_eq_true_eq]
  intro e he
  rcases h e he with h1 | h1 <;> tauto

theorem verifyToken_storePair_self (idx : TokenIndex) (k : UserKey) (p : TokenPair) :
    verifyToken (storePair idx k p) k.tenantId p.access = true := by
  simp [verifyToken, storePair]

theorem lookupSlot_filterTenant_of_eq (idx : TokenIndex) (k : UserKey) (tid : String)
    (h : k.tenantId = tid) :
    lookupSlot (idx.filter (fun e => decide (e.1.tenantId ≠ tid))) k = none := by
  induction idx with
  | nil => rfl
  | cons e tl ih =>
    by_cases he : e.1.tenantId = tid
    · simpa [List.filter, he] using ih
    · have hek : e.1 ≠ k := by
        intro hkk
        exact he (hkk ▸ h)
      simpa [List.filter, he, lookupSlot, List.find?, hek] using ih

theorem lookupSlot_filterTenant_of_ne (idx : TokenIndex) (k : UserKey) (tid : String)
    (h : k.tenantId ≠ tid) :
    lookupSlot (idx.filter (fun e => decide (e.1.tenantId ≠ tid))) k = lookupSlot idx k := by
  induction idx with
  | nil => rfl
  | cons e tl ih =>
    by_cases he : e.1.tenantId = tid
    · have hek : e.1 ≠ k := by
        intro hkk
        exact h (hkk ▸ he)
      simpa [List.filter, he, lookupSlot, List.find?, hek] using ih
    · by_cases hek : e.1 = k
      · simp [List.filter, he, h, lookupSlot, List.find?, hek]
      · simpa [List.filter, he, h, lookupSlot, List.find?, hek] using ih

theorem verifyToken_revokeAll_same_tenant (idx : TokenIndex) (tid tok : String) :
    verifyToken (revokeAllTenantTokens idx tid).index tid tok = false := by
  apply verifyToken_eq_false
  intro e he
  left
  have := (List.mem_filter.mp he).2
  simpa using this

/-- C2: for a user that logs in successfully, VerifyToken on the access
token returned by that Login is true while the slot is live, and after
Logout, RevokeToken or RevokeAllTenantTokens for that user, VerifyToken
on the same access token is false and the stored token-index key for
that user no longer exists.  The freshness hypothesis reflects that the
engine generates fresh opaque tokens. -/
theorem verify_after_login_and_revocations (db : CredDB) (idx : TokenIndex)
    (tid ident pw : String) (fresh : TokenPair) (out : TokenIndex × TokenPair)
    (hok : loginOp db idx tid ident pw fresh = .ok out)
    (hfresh : ∀ e ∈ idx, e.2.access ≠ fresh.access) :
    ∃ uid : String,
      out.1 = storePair idx ⟨tid, uid⟩ fresh ∧
      out.2 = fresh ∧
      verifyToken out.1 tid fresh.access = true ∧
      (∀ a r, verifyToken (logoutOp out.1 ⟨tid, uid⟩ a r).1 tid fresh.access = false ∧
              lookupSlot (logoutOp out.1 ⟨tid, uid⟩ a r).1 ⟨tid, uid⟩ = none) ∧
      (∀ rb a r,
          verifyToken (revokeTokenOp out.1 ⟨tid, uid⟩ rb a r).1 tid fresh.access = false ∧
          lookupSlot (revokeTokenOp out.1 ⟨tid, uid⟩ rb a r).1 ⟨tid, uid⟩ = none) ∧
      (verifyToken (revokeAllTenantTokens out.1 tid).index tid fresh.access = false ∧
       lookupSlot (revokeAllTenantTokens out.1 tid).index ⟨tid, uid⟩ = none) := by
  unfold loginOp at hok
  cases hfind : findUserByIdentifier db tid ident with
  | none => rw [hfind] at hok; exact absurd hok (by simp)
  | some u =>
    rw [hfind] at hok
    dsimp only at hok
    split at hok
    case isTrue hpw =>
      have hout : out = (storePair idx ⟨tid, u.id⟩ fresh, fresh) := by
        injection hok with h2
        exact h2.symm
      refine ⟨u.id, ?_, ?_, ?_, ?_, ?_, ?_⟩
      · rw [hout]
      · rw [hout]
      · rw [hout]
        exact verifyToken_storePair_self idx ⟨tid, u.id⟩ fresh
      · intro a r
        constructor
        · rw [hout]
          show verifyToken (deleteKey (storePair idx ⟨tid, u.id⟩ fresh) ⟨tid, u.id⟩) tid
              fresh.access = false
          rw [deleteKey_storePair]
          apply verifyToken_eq_false
          intro e he
          exact Or.inr (hfresh e (mem_deleteKey he).1)
        · exact lookupSlot_deleteKey_self _ _
      · intro rb a r
        constructor
        · rw [hout]
          show verifyToken (deleteKey (storePair idx ⟨tid, u.id⟩ fresh) ⟨tid, u.id⟩) tid
              fresh.access = false
          rw [deleteKey_storePair]
          apply verifyToken_eq_false
          intro e he
          exact Or.inr (hfresh e (mem_deleteKey he).1)
        · exact lookupSlot_deleteKey_self _ _
      · refine ⟨verifyToken_revokeAll_same_tenant _ _ _, ?_⟩
        exact lookupSlot_filterTenant_of_eq _ ⟨tid, u.id⟩ tid rfl
    case isFalse hpw =>
      exact absurd hok (by simp)

/-- C2 witness: the theorem applied to a one-user store with a concrete
fresh token pair. -/
theorem verify_after_login_and_revocations_witness :
    ∃ uid : String,
      (storePair ([] : TokenIndex) ⟨"t1", "u1"⟩ ⟨"acc1", "ref1"⟩,
        (⟨"acc1", "ref1"⟩ : TokenPair)).1 = storePair [] ⟨"t1", uid⟩ ⟨"acc1", "ref1"⟩ ∧
      (storePair ([] : TokenIndex) ⟨"t1", "u1"⟩ ⟨"acc1", "ref1"⟩,
        (⟨"acc1", "ref1"⟩ : TokenPair)).2 = ⟨"acc1", "ref1"⟩ ∧
      verifyToken (storePair [] ⟨"t1", "u1"⟩ ⟨"acc1", "ref1"⟩) "t1" "acc1" = true ∧
      (∀ a r, verifyToken
          (logoutOp (storePair [] ⟨"t1", "u1"⟩ ⟨"acc1", "ref1"⟩) ⟨"t1", uid⟩ a r).1
          "t1" "acc1" = false ∧
        lookupSlot
          (logoutOp (storePair [] ⟨"t1", "u1"⟩ ⟨"acc1", "ref1"⟩) ⟨"t1", uid⟩ a r).1
          ⟨"t1", uid⟩ = none) ∧
      (∀ rb a r, verifyToken
          (revokeTokenOp (storePair [] ⟨"t1", "u1"⟩ ⟨"acc1", "ref1"⟩) ⟨"t1", uid⟩ rb a r).1
          "t1" "acc1" = false ∧
        lookupSlot
          (revokeTokenOp (storePair [] ⟨"t1", "u1"⟩ ⟨"acc1", "ref1"⟩) ⟨"t1", uid⟩ rb a r).1
          ⟨"t1", uid⟩ = none) ∧
      (verifyToken
          (revokeAllTenantTokens (storePair [] ⟨"t1", "u1"⟩ ⟨"acc1", "ref1"⟩) "t1").index
          "t1" "acc1" = false ∧
        lookupSlot
          (revokeAllTenantTokens (storePair [] ⟨"t1", "u1"⟩ ⟨"acc1", "ref1"⟩) "t1").index
          ⟨"t1", uid⟩ = none) :=
  verify_after_login_and_revocations
    ⟨[], [⟨"u1", "t1", "a@b.c", "admin", hashPassword "pw", .active, true, []⟩], [], []⟩
    [] "t1" "admin" "pw" ⟨"acc1", "ref1"⟩
    (storePair [] ⟨"t1", "u1"⟩ ⟨"acc1", "ref1"⟩, ⟨"acc1", "ref1"⟩)
    (by rfl) (by decide)

/-- Modelled from the spec: well-formedness of the Token Index, at most
one entry per (tenant_id, user_id) key. -/
def WFIndex (idx : TokenIndex) : Prop :=
  (idx.map (·.1)).Nodup

/-- Modelled from the spec: the keys of the users of a tenant that hold
a live token slot. -/
def activeTenantUsers (idx : TokenIndex) (tid : String) : List UserKey :=
  (idx.filter (fun e => decide (e.1.tenantId = tid))).map (·.1)

theorem activeTenantUsers_nodup (idx : TokenIndex) (tid : String)
    (hwf : WFIndex idx) : (activeTenantUsers idx tid).Nodup := by
  have hsub : List.Sublist
      ((idx.filter (fun e => decide (e.1.tenantId = tid))).map (·.1))
      (idx.map (·.1)) := (List.filter_sublist idx).map _
  exact hwf.sublist hsub

/-- C1: RevokeAllTenantTokens(T) deletes the token slot of every user
of T that had an active slot, leaves the slot of every user of any
other tenant untouched, and both returned counts equal exactly the
number of users of T that had an active slot at call time. -/
theorem revokeAll_revokes_exactly_tenant (idx : TokenIndex) (T : String)
    (hwf : WFIndex idx) :
    (∀ k : UserKey, k.tenantId = T →
        lookupSlot (revokeAllTenantTokens idx T).index k = none) ∧
    (∀ k : UserKey, k.tenantId ≠ T →
        lookupSlot (revokeAllTenantTokens idx T).index k = lookupSlot idx k) ∧
    (revokeAllTenantTokens idx T).accessRevoked = (activeTenantUsers idx T).length ∧
    (revokeAllTenantTokens idx T).refreshRevoked = (activeTenantUsers idx T).length ∧
    (activeTenantUsers idx T).Nodup ∧
    (revokeAllTenantTokens idx T).revoked = true := by
  refine ⟨?_, ?_, ?_, ?_, activeTenantUsers_nodup idx T hwf, rfl⟩
  · intro k hk
    exact lookupSlot_filterTenant_of_eq idx k T hk
  · intro k hk
    exact lookupSlot_filterTenant_of_ne idx k T hk
  · simp [revokeAllTenantTokens, activeTenantUsers]
  · simp [revokeAllTenantTokens, activeTenantUsers]

/-- C1 witness: a Token Index with three live slots, two of tenant T
and one of tenant S. -/
theorem revokeAll_revokes_exactly_tenant_witness :
    (∀ k : UserKey, k.tenantId = "T" →
        lookupSlot (revokeAllTenantTokens
          [(⟨"T", "u1"⟩, ⟨"a1", "r1"⟩), (⟨"T", "u2"⟩, ⟨"a2", "r2"⟩),
           (⟨"S", "u3"⟩, ⟨"a3", "r3"⟩)] "T").index k = none) ∧
    (∀ k : UserKey, k.tenantId ≠ "T" →
        lookupSlot (revokeAllTenantTokens
          [(⟨"T", "u1"⟩, ⟨"a1", "r1"⟩), (⟨"T", "u2"⟩, ⟨"a2", "r2"⟩),
           (⟨"S", "u3"⟩, ⟨"a3", "r3"⟩)] "T").index k =
        lookupSlot
          [(⟨"T", "u1"⟩, ⟨"a1", "r1"⟩), (⟨"T", "u2"⟩, ⟨"a2", "r2"⟩),
           (⟨"S", "u3"⟩, ⟨"a3", "r3"⟩)] k) ∧
    (revokeAllTenantTokens
      [(⟨"T", "u1"⟩, ⟨"a1", "r1"⟩), (⟨"T", "u2"⟩, ⟨"a2", "r2"⟩),
       (⟨"S", "u3"⟩, ⟨"a3", "r3"⟩)] "T").accessRevoked =
      (activeTenantUsers
        [(⟨"T", "u1"⟩, ⟨"a1", "r1"⟩), (⟨"T", "u2"⟩, ⟨"a2", "r2"⟩),
         (⟨"S", "u3"⟩, ⟨"a3", "r3"⟩)] "T").length ∧
    (revokeAllTenantTokens
      [(⟨"T", "u1"⟩, ⟨"a1", "r1"⟩), (⟨"T", "u2"⟩, ⟨"a2", "r2"⟩),
       (⟨"S", "u3"⟩, ⟨"a3", "r3"⟩)] "T").refreshRevoked =
      (activeTenantUsers
        [(⟨"T", "u1"⟩, ⟨"a1", "r1"⟩), (⟨"T", "u2"⟩, ⟨"a2", "r2"⟩),
         (⟨"S", "u3"⟩, ⟨"a3", "r3"⟩)] "T").length ∧
    (activeTenantUsers
      [(⟨"T", "u1"⟩, ⟨"a1", "r1"⟩), (⟨"T", "u2"⟩, ⟨"a2", "r2"⟩),
       (⟨"S", "u3"⟩, ⟨"a3", "r3"⟩)] "T").Nodup ∧
    (revokeAllTenantTokens
      [(⟨"T", "u1"⟩, ⟨"a1", "r1"⟩), (⟨"T", "u2"⟩, ⟨"a2", "r2"⟩),
       (⟨"S", "u3"⟩, ⟨"a3", "r3"⟩)] "T").revoked = true :=
  revokeAll_revokes_exactly_tenant
    [(⟨"T", "u1"⟩, ⟨"a1", "r1"⟩), (⟨"T", "u2"⟩, ⟨"a2", "r2"⟩),
     (⟨"S", "u3"⟩, ⟨"a3", "r3"⟩)] "T" (by unfold WFIndex; decide)

/-- C4: Logout deletes the token-index entries of the user
unconditionally, always succeeds with the fixed message
"logout successful", and is idempotent: a second Logout for the same
user returns the same message and leaves the state unchanged. -/
theorem logout_unconditional_and_idempotent (idx : TokenIndex) (k : UserKey)
    (at1 rt1 at2 rt2 : String) :
    (logoutOp idx k at1 rt1).2 = "logout successful" ∧
    lookupSlot (logoutOp idx k at1 rt1).1 k = none ∧
    logoutOp (logoutOp idx k at1 rt1).1 k at2 rt2 = logoutOp idx k at1 rt1 := by
  refine ⟨rfl, lookupSlot_deleteKey_self idx k, ?_⟩
  simp [logoutOp, deleteKey_deleteKey]

theorem find?_filter_not {α : Type} (l : List α) (p : α → Prop) [DecidablePred p] :
    (l.filter (fun a => decide (¬p a))).find? (fun a => decide (p a)) = none := by
  induction l with
  | nil => rfl
  | cons a tl ih =>
    by_cases h : p a
    · simpa [List.filter, h] using ih
    · simpa [List.filter, h, List.find?] using ih

/-- C5: deletes are hard deletes: after DeletePermission or DeleteRole,
a Get on the deleted id within the same tenant fails with the NotFound
error status, whatever the prior contents of the store. -/
theorem get_after_delete_is_notFound (ps : List PermissionRec) (rs : List RoleRec)
    (ttid pid rid : String) :
    getPermissionOp (deletePermissionOp ps ttid pid).1 ttid pid = .error .notFound ∧
    getRoleOp (deleteRoleOp rs ttid rid).1 ttid rid = .error .notFound := by
  constructor
  · simp only [getPermissionOp, deletePermissionOp]
    rw [find?_filter_not ps (fun r => r.id = pid ∧ r.tenantId = ttid)]
  · simp only [getRoleOp, deleteRoleOp]
    rw [find?_filter_not rs (fun r => r.id = rid ∧ r.tenantId = ttid)]

/-- C6: after a successful CreatePermission, creating a second
permission with the same (tenant_id, permission_string) fails with the
conflict error AlreadyExists, the store is left unchanged, and the
first permission is still retrievable unchanged by its id. -/
theorem create_duplicate_permission_conflict (s : List PermissionRec)
    (id1 id2 : String) (p1 p2 : PermissionRec) (s1 : List PermissionRec) (rid : String)
    (h1 : createPermissionOp s id1 p1 = (s1, .ok rid))
    (ht : p2.tenantId = p1.tenantId) (hs : p2.permission_string = p1.permission_string) :
    createPermissionOp s1 id2 p2 = (s1, .error .alreadyExists) ∧
    getPermissionOp s1 p1.tenantId id1 = .ok {p1 with id := id1} := by
  unfold createPermissionOp at h1
  split at h1
  case isTrue ha => exact absurd h1 (by simp)
  case isFalse ha =>
    have hs1 : s1 = {p1 with id := id1} :: s := by
      have := congrArg Prod.fst h1
      simpa using this.symm
    have hany : (s1.any fun r =>
        decide (r.tenantId = p2.tenantId ∧ r.permission_string = p2.permission_string)) = true := by
      rw [hs1]
      simp [ht, hs]
    constructor
    · unfold createPermissionOp
      rw [if_pos hany]
    · rw [hs1]
      simp [getPermissionOp, List.find?]

/-- C6 witness: creating products:read twice in the same tenant, the
second create conflicts. -/
theorem create_duplicate_permission_conflict_witness :
    createPermissionOp
      [{ id := "pid1", tenantId := "T", resource := "products", action := "read",
         permission_string := "products:read", displayName := "Read Products",
         description := "View product list", status := .active, isDangerous := false }]
      "pid2"
      { id := "", tenantId := "T", resource := "products", action := "read",
        permission_string := "products:read", displayName := "Read Products",
        description := "View product list", status := .active, isDangerous := false } =
      ([{ id := "pid1", tenantId := "T", resource := "products", action := "read",
          permission_string := "products:read", displayName := "Read Products",
          description := "View product list", status := .active, isDangerous := false }],
        .error .alreadyExists) ∧
    getPermissionOp
      [{ id := "pid1", tenantId := "T", resource := "products", action := "read",
         permission_string := "products:read", displayName := "Read Products",
         description := "View product list", status := .active, isDangerous := false }]
      "T" "pid1" =
      .ok { id := "pid1", tenantId := "T", resource := "products", action := "read",
            permission_string := "products:read", displayName := "Read Products",
            description := "View product list", status := .active, isDangerous := false } :=
  create_duplicate_permission_conflict [] "pid1" "pid2"
    { id := "", tenantId := "T", resource := "products", action := "read",
      permission_string := "products:read", displayName := "Read Products",
      description := "View product list", status := .active, isDangerous := false }
    { id := "", tenantId := "T", resource := "products", action := "read",
      permission_string := "products:read", displayName := "Read Products",
      description := "View product list", status := .active, isDangerous := false }
    _ _ (by rfl) (by rfl) (by rfl)

theorem wildcard_mem_userPermStrings (db : CredDB) (tid uid : String) (u : UserRec)
    (a : RoleAssignment) (r : RoleRec) (pid : String) (p : PermissionRec)
    (hu : findUserById db tid uid = some u)
    (ha : a ∈ u.roles)
    (hr : findRoleById db a.roleId = some r)
    (hp : pid ∈ r.permissions)
    (hperm : db.permissions.find? (fun q => decide (q.id = pid ∧ q.tenantId = tid)) = some p)
    (hw : p.permission_string = "*:*") :
    "*:*" ∈ userPermStrings db tid uid tid := by
  unfold userPermStrings
  rw [hu]
  apply List.mem_bind.mpr
  refine ⟨a.roleId, List.mem_map.mpr ⟨a, ha, rfl⟩, ?_⟩
  unfold rolePermStrings
  rw [hr]
  apply List.mem_filterMap.mpr
  exact ⟨pid, hp, by rw [hperm]; simp [hw]⟩

/-- C7: a user holding a role whose permission set contains the
wildcard permission "*:*" passes HasPermission for every permission
string in that tenant, and CheckPermissions answers true for every
requested string. -/
theorem wildcard_grants_every_permission (db : CredDB) (tid uid : String)
    (u : UserRec) (a : RoleAssignment) (r : RoleRec) (pid : String) (p : PermissionRec)
    (hu : findUserById db tid uid = some u)
    (ha : a ∈ u.roles)
    (hr : findRoleById db a.roleId = some r)
    (hp : pid ∈ r.permissions)
    (hperm : db.permissions.find? (fun q => decide (q.id = pid ∧ q.tenantId = tid)) = some p)
    (hw : p.permission_string = "*:*") :
    (∀ q : String, hasPermissionOp db tid uid q tid = true) ∧
    (∀ qs : List String, ∀ x ∈ checkPermissionsOp db tid uid qs, x.2 = true) := by
  have hmem : "*:*" ∈ userPermStrings db tid uid tid :=
    wildcard_mem_userPermStrings db tid uid u a r pid p hu ha hr hp hperm hw
  have hall : ∀ q : String, hasPermissionOp db tid uid q tid = true := by
    intro q
    apply List.any_eq_true.mpr
    exact ⟨"*:*", hmem, by simp⟩
  refine ⟨hall, ?_⟩
  intro qs x hx
  rcases List.mem_map.mp hx with ⟨q, _, rfl⟩
  exact hall q

/-- C7 witness: tenant T1, user admin holding a role with the wildcard
permission; products:read and orders:write are both granted although no
specific permission record exists for them. -/
theorem wildcard_grants_every_permission_witness :
    (∀ q : String, hasPermissionOp
        ⟨[], [⟨"admin", "T1", "a@b.c", "admin", "h", .active, true,
               [⟨"role1", "T1", "System"⟩]⟩],
          [⟨"role1", "T1", "system_admin", "d", ["perm1"], .active, .system⟩],
          [⟨"perm1", "T1", "*", "*", "*:*", "System Controller", "Full system access",
            .active, true⟩]⟩
        "T1" "admin" q "T1" = true) ∧
    (∀ qs : List String, ∀ x ∈ checkPermissionsOp
        ⟨[], [⟨"admin", "T1", "a@b.c", "admin", "h", .active, true,
               [⟨"role1", "T1", "System"⟩]⟩],
          [⟨"role1", "T1", "system_admin", "d", ["perm1"], .active, .system⟩],
          [⟨"perm1", "T1", "*", "*", "*:*", "System Controller", "Full system access",
            .active, true⟩]⟩
        "T1" "admin" qs, x.2 = true) :=
  wildcard_grants_every_permission
    ⟨[], [⟨"admin", "T1", "a@b.c", "admin", "h", .active, true,
           [⟨"role1", "T1", "System"⟩]⟩],
      [⟨"role1", "T1", "system_admin", "d", ["perm1"], .active, .system⟩],
      [⟨"perm1", "T1", "*", "*", "*:*", "System Controller", "Full system access",
        .active, true⟩]⟩
    "T1" "admin"
    ⟨"admin", "T1", "a@b.c", "admin", "h", .active, true, [⟨"role1", "T1", "System"⟩]⟩
    ⟨"role1", "T1", "System"⟩
    ⟨"role1", "T1", "system_admin", "d", ["perm1"], .active, .system⟩
    "perm1"
    ⟨"perm1", "T1", "*", "*", "*:*", "System Controller", "Full system access",
      .active, true⟩
    (by rfl) (by decide) (by rfl) (by decide) (by rfl) (by rfl)

/-- C8: IsSystemTenantUser is true iff the tenant exists and carries
the reserved system tenant name (identification by name, not by id
pattern); in particular it is true for the tenant created by the
seeder, whose name is the configured default tenant name. -/
theorem isSystemTenantUser_reserved_name (sysName : String)
    (tenants seeded : List TenantRec) (tid newId : String) :
    (isSystemTenantUserOp sysName tenants tid = true ↔
      ∃ t : TenantRec, lookupTenant tenants tid = some t ∧ t.name = sysName) ∧
    isSystemTenantUserOp defaultTenantName (seedTenant newId seeded).1 newId = true := by
  constructor
  · unfold isSystemTenantUserOp
    cases h : lookupTenant tenants tid with
    | none => simp [h]
    | some t => simp [h]
  · simp [isSystemTenantUserOp, seedTenant, lookupTenant, List.find?]

/-! ## Sequences of Logins and Refreshes for one user (claim C3) -/

/-- Modelled from the spec: one token-issuing event for a fixed user,
either a Login or a RefreshToken call, carrying the pair freshly
generated by the engine for that event. -/
inductive AuthEvent where
  | loginE (p : TokenPair)
  | refreshE (p : TokenPair)
deriving DecidableEq, Repr

/-- The pair issued by an event. -/
def AuthEvent.pair : AuthEvent → TokenPair
  | .loginE p => p
  | .refreshE p => p

/-- Modelled from the spec: executing one event for user k.  A Login
stores the fresh pair, overwriting the slot; a Refresh is the client
supplying the refresh token it received last, that is the currently
stored one, and fails when the slot is absent. -/
def runEvent (k : UserKey) (idx : TokenIndex) : AuthEvent → Option TokenIndex
  | .loginE p => some (storePair idx k p)
  | .refreshE p =>
    match lookupSlot idx k with
    | none => none
    | some q =>
      match refreshTokenOp idx k.tenantId q.refresh p with
      | none => none
      | some (idx2, _) => some idx2

/-- Modelled from the spec: executing a sequence of events for user k,
aborting on the first failure. -/
def runEvents (k : UserKey) (idx : TokenIndex) : List AuthEvent → Option TokenIndex
  | [] => some idx
  | e :: es =>
    match runEvent k idx e with
    | none => none
    | some idx2 => runEvents k idx2 es

theorem filter_key_deleteKey_eq_nil (idx : TokenIndex) (k : UserKey) :
    (deleteKey idx k).filter (fun e => decide (e.1 = k)) = [] := by
  induction idx with
  | nil => rfl
  | cons e tl ih =>
    by_cases h : e.1 = k
    · simpa [deleteKey, List.filter, h] using ih
    · simpa [deleteKey, List.filter, h] using ih

theorem storePair_on_slot (k : UserKey) (p p2 : TokenPair) (rest : TokenIndex)
    (hrest : deleteKey rest k = rest) :
    storePair ((k, p) :: rest) k p2 = (k, p2) :: rest := by
  show (k, p2) :: ((k, p) :: rest).filter (fun e => decide (e.1 ≠ k)) = (k, p2) :: rest
  rw [List.filter_cons, if_neg (by simp)]
  show (k, p2) :: deleteKey rest k = (k, p2) :: rest
  rw [hrest]

theorem runEvent_on_slot (k : UserKey) (p : TokenPair) (rest : TokenIndex)
    (hrest : deleteKey rest k = rest) (e : AuthEvent) :
    runEvent k ((k, p) :: rest) e = some ((k, AuthEvent.pair e) :: rest) := by
  cases e with
  | loginE p2 =>
    simp [runEvent, AuthEvent.pair, storePair_on_slot k p p2 rest hrest]
  | refreshE p2 =>
    have hl : lookupSlot ((k, p) :: rest) k = some p := by
      simp [lookupSlot, List.find?]
    have hf : findByRefresh ((k, p) :: rest) k.tenantId p.refresh = some k := by
      simp [findByRefresh, List.find?]
    simp [runEvent, hl, refreshTokenOp, hf, AuthEvent.pair,
      storePair_on_slot k p p2 rest hrest]

theorem runEvents_on_slot (k : UserKey) (es : List AuthEvent) :
    ∀ (p : TokenPair) (rest : TokenIndex), deleteKey rest k = rest →
      runEvents k ((k, p) :: rest) es =
        some ((k, (es.map AuthEvent.pair).getLastD p) :: rest) := by
  induction es with
  | nil => intro p rest _; rfl
  | cons e tl ih =>
    intro p rest hrest
    rw [runEvents, runEvent_on_slot k p rest hrest e]
    dsimp only
    rw [ih (AuthEvent.pair e) rest hrest, List.map_cons, List.getLastD_cons]

theorem getLastD_mem_cons {α : Type} (b : α) (tl : List α) (d : α) :
    (b :: tl).getLastD d ∈ b :: tl := by
  induction tl generalizing b with
  | nil => simp [List.getLastD]
  | cons c tl2 ih =>
    rw [List.getLastD_cons]
    exact List.mem_cons_of_mem b (ih c)

theorem pairwise_rel_getLastD {α : Type} {R : α → α → Prop} {x : α} :
    ∀ (xs : List α) (d : α), xs.Pairwise R → x ∈ xs.dropLast → R x (xs.getLastD d) := by
  intro xs
  induction xs with
  | nil => intro d _ hx; simp at hx
  | cons a tl ih =>
    intro d hp hx
    cases tl with
    | nil => simp at hx
    | cons b tl2 =>
      rw [List.getLastD_cons]
      rcases List.mem_cons.mp (by simpa [List.dropLast] using hx) with rfl | hx2
      · exact (List.pairwise_cons.mp hp).1 _ (getLastD_mem_cons b tl2 x)
      · exact ih a (List.pairwise_cons.mp hp).2 hx2

theorem mem_of_mem_dropLast {α : Type} {xs : List α} {x : α}
    (h : x ∈ xs.dropLast) : x ∈ xs :=
  List.dropLast_subset xs h

/-- C3: at most one live token pair per (tenant_id, user_id): starting
from a Login, any sequence of Logins and Refreshes for the same user
succeeds and leaves exactly one entry for that user; only the
last-issued access token verifies as valid, and every earlier issued
pair is invalid, both for verification of its access token and for
refreshing with its refresh token.  The pairwise-distinctness and
freshness hypotheses reflect that the engine generates fresh opaque
tokens at every issue. -/
theorem single_live_pair_only_last_valid (idx0 : TokenIndex) (k : UserKey)
    (p0 : TokenPair) (es : List AuthEvent)
    (hA : (p0 :: es.map AuthEvent.pair).Pairwise (fun a b => a.access ≠ b.access))
    (hR : (p0 :: es.map AuthEvent.pair).Pairwise (fun a b => a.refresh ≠ b.refresh))
    (hfA : ∀ p ∈ p0 :: es.map AuthEvent.pair, ∀ e ∈ idx0, e.2.access ≠ p.access)
    (hfR : ∀ p ∈ p0 :: es.map AuthEvent.pair, ∀ e ∈ idx0, e.2.refresh ≠ p.refresh) :
    ∃ fin : TokenIndex,
      runEvents k (storePair idx0 k p0) es = some fin ∧
      (fin.filter (fun e => decide (e.1 = k))).length = 1 ∧
      verifyToken fin k.tenantId ((es.map AuthEvent.pair).getLastD p0).access = true ∧
      ∀ p ∈ (p0 :: es.map AuthEvent.pair).dropLast,
        verifyToken fin k.tenantId p.access = false ∧
        ∀ q : TokenPair, refreshTokenOp fin k.tenantId p.refresh q = none := by
  have hrest : deleteKey (deleteKey idx0 k) k = deleteKey idx0 k :=
    deleteKey_deleteKey idx0 k
  have hrun : runEvents k (storePair idx0 k p0) es =
      some ((k, (es.map AuthEvent.pair).getLastD p0) :: deleteKey idx0 k) :=
    runEvents_on_slot k es p0 (deleteKey idx0 k) hrest
  set lastP := (es.map AuthEvent.pair).getLastD p0 with hlastP
  have hlast_eq : (p0 :: es.map AuthEvent.pair).getLastD p0 = lastP := by
    rw [List.getLastD_cons]
  refine ⟨(k, lastP) :: deleteKey idx0 k, hrun, ?_, ?_, ?_⟩
  · rw [List.filter_cons]
    simp [filter_key_deleteKey_eq_nil]
  · simp [verifyToken]
  · intro p hp
    have hpmem : p ∈ p0 :: es.map AuthEvent.pair := mem_of_mem_dropLast hp
    have hpa : p.access ≠ lastP.access := by
      have := pairwise_rel_getLastD (R := fun a b => a.access ≠ b.access)
        (p0 :: es.map AuthEvent.pair) p0 hA hp
      rwa [hlast_eq] at this
    have hpr : p.refresh ≠ lastP.refresh := by
      have := pairwise_rel_getLastD (R := fun a b => a.refresh ≠ b.refresh)
        (p0 :: es.map AuthEvent.pair) p0 hR hp
      rwa [hlast_eq] at this
    constructor
    · apply verifyToken_eq_false
      intro e he
      rcases List.mem_cons.mp he with rfl | he2
      · exact Or.inr (fun hc => hpa hc.symm)
      · exact Or.inr (hfA p hpmem e (mem_deleteKey he2).1)
    · intro q
      have hnone : findByRefresh ((k, lastP) :: deleteKey idx0 k) k.tenantId p.refresh
          = none := by
        unfold findByRefresh
        rw [List.find?_eq_none.mpr]
        · rfl
        · intro e he
          rcases List.mem_cons.mp he with rfl | he2
          · simp only [decide_eq_true_eq]
            exact fun hc => hpr hc.2.symm
          · simp only [decide_eq_true_eq]
            exact fun hc => hfR p hpmem e (mem_deleteKey he2).1 hc.2
      simp [refreshTokenOp, hnone]

/-- C3 witness: starting from an index holding another user, a Login
followed by one more Login and one Refresh, all with pairwise distinct
fresh tokens. -/
theorem single_live_pair_only_last_valid_witness :
    ∃ fin : TokenIndex,
      runEvents ⟨"t", "u"⟩
        (storePair [(⟨"t", "other"⟩, ⟨"xa", "xr"⟩)] ⟨"t", "u"⟩ ⟨"a0", "r0"⟩)
        [.loginE ⟨"a1", "r1"⟩, .refreshE ⟨"a2", "r2"⟩] = some fin ∧
      (fin.filter (fun e => decide (e.1 = (⟨"t", "u"⟩ : UserKey)))).length = 1 ∧
      verifyToken fin (UserKey.tenantId ⟨"t", "u"⟩)
        ((([.loginE ⟨"a1", "r1"⟩, .refreshE ⟨"a2", "r2"⟩] :
            List AuthEvent).map AuthEvent.pair).getLastD ⟨"a0", "r0"⟩).access = true ∧
      ∀ p ∈ ((⟨"a0", "r0"⟩ : TokenPair) ::
          ([.loginE ⟨"a1", "r1"⟩, .refreshE ⟨"a2", "r2"⟩] :
            List AuthEvent).map AuthEvent.pair).dropLast,
        verifyToken fin (UserKey.tenantId ⟨"t", "u"⟩) p.access = false ∧
        ∀ q : TokenPair,
          refreshTokenOp fin (UserKey.tenantId ⟨"t", "u"⟩) p.refresh q = none :=
  single_live_pair_only_last_valid [(⟨"t", "other"⟩, ⟨"xa", "xr"⟩)] ⟨"t", "u"⟩
    ⟨"a0", "r0"⟩ [.loginE ⟨"a1", "r1"⟩, .refreshE ⟨"a2", "r2"⟩]
    (by decide) (by decide) (by decide) (by decide)

/-! ## Infrastructure code translated from the Python sources -/

/-- A Python-level error surfaced by the test-support code. -/
inductive PyError where
  | attributeError (attr : String)
  | runtimeError (msg : String)
deriving DecidableEq, Repr

/-- One observable database side effect of DatabaseManager. -/
inductive DbEffect where
  | dropDatabase (name : String)
  | redisFlushdb
deriving DecidableEq, Repr

/-- The class attributes defined on TestConfig in
src/internal/infra/functional/config.py lines 41-92: service endpoints,
database configurations, test data defaults and timeouts.  No attribute
named TEST_DATABASES is defined anywhere in the class. -/
def testConfigAttrs : List String :=
  ["AUTH_SERVICE", "CONFIG_SERVICE", "CORE_SERVICE", "MONGODB", "REDIS",
   "DEFAULT_TENANT_NAME", "DEFAULT_ADMIN_EMAIL", "DEFAULT_ADMIN_PASSWORD",
   "DEFAULT_ADMIN_USERNAME", "GRPC_TIMEOUT", "DB_TIMEOUT"]

/-- Python attribute access on the TestConfig class: defined attributes
resolve, any other name raises AttributeError. -/
def testConfigHasAttr (a : String) : Bool :=
  testConfigAttrs.contains a

/-- The dict of test database names that clean_test_data iterates:
the attribute lookup fails because TEST_DATABASES is not defined on
TestConfig, so no value is ever produced (the some branch carrying the
dict values is unreachable). -/
def testConfigTestDatabases : Option (List String) :=
  if testConfigHasAttr "TEST_DATABASES" then some [] else none

/-- The connection state of DatabaseManager
(src/internal/infra/functional/db/manager.py): whether
self.mongo_client and self.redis_client are set (non-None). -/
structure DatabaseManagerState where
  mongoConnected : Bool
  redisConnected : Bool
deriving DecidableEq, Repr

/-- DatabaseManager.setup connects both clients, so both attributes are
set afterwards (a successful setup also verified the connections). -/
def DatabaseManager.setup (st : DatabaseManagerState) : DatabaseManagerState :=
  { mongoConnected := true, redisConnected := true }

/-- DatabaseManager.clean_test_data, manager.py lines 47-56: when the
mongo client is set it iterates TestConfig.TEST_DATABASES.values()
dropping each database, then, when the redis client is set, flushes
Redis.  The returned trace lists the effects executed before the first
raised error, and the error with which the call aborted, if any. -/
def DatabaseManager.clean_test_data (st : DatabaseManagerState) :
    List DbEffect × Option PyError :=
  if st.mongoConnected then
    match testConfigTestDatabases with
    | none => ([], some (.attributeError "TEST_DATABASES"))
    | some dbs =>
      (dbs.map DbEffect.dropDatabase ++
        (if st.redisConnected then [DbEffect.redisFlushdb] else []), none)
  else
    if st.redisConnected then ([DbEffect.redisFlushdb], none) else ([], none)

/-- The body of the clean_database fixture in
src/internal/auth/functional/conftest.py lines 59-67: a fresh
DatabaseManager is set up and clean_test_data is called. -/
def cleanDatabaseFixture : List DbEffect × Option PyError :=
  DatabaseManager.clean_test_data
    (DatabaseManager.setup ⟨false, false⟩)

/-- C9: after a successful DatabaseManager.setup, every call to
clean_test_data raises AttributeError while performing no database
effect, because TestConfig defines no TEST_DATABASES attribute; in
particular the clean_database fixture aborts before the Redis flushdb
step. -/
theorem clean_test_data_raises_attributeError (st : DatabaseManagerState) :
    DatabaseManager.clean_test_data (DatabaseManager.setup st) =
      ([], some (.attributeError "TEST_DATABASES")) ∧
    DbEffect.redisFlushdb ∉
      (DatabaseManager.clean_test_data (DatabaseManager.setup st)).1 ∧
    cleanDatabaseFixture = ([], some (.attributeError "TEST_DATABASES")) ∧
    DbEffect.redisFlushdb ∉ cleanDatabaseFixture.1 := by
  have h0 : DatabaseManager.clean_test_data (DatabaseManager.setup st) =
      ([], some (.attributeError "TEST_DATABASES")) := rfl
  refine ⟨h0, ?_, rfl, by decide⟩
  rw [h0]
  decide

/-- The Redis connection underlying the redis-py client, modelled as
the key-value store it manipulates. -/
structure RedisConn where
  store : List (String × String)
deriving DecidableEq, Repr

/-- The state of a RedisClient instance
(src/internal/infra/functional/db/redis_client.py): self.client is
None until connect() assigns a connection. -/
structure RedisClientState where
  client : Option RedisConn
deriving DecidableEq, Repr

/-- RedisClient.connect assigns self.client. -/
def RedisClient.connect (server : RedisConn) (st : RedisClientState) :
    RedisClientState :=
  { client := some server }

/-- RedisClient.disconnect calls self.client.close() when set, which
releases the network connection but leaves the self.client attribute
referencing the client object; the state relevant to the guards in the
operations is unchanged. -/
def RedisClient.disconnect (st : RedisClientState) : RedisClientState :=
  st

/-- The message of the RuntimeError raised by the unconnected guard. -/
def redisNotConnectedMsg : String :=
  "Redis not connected. Call connect() first."

/-- RedisClient.set, redis_client.py lines 47-54: raises RuntimeError
when self.client is None, otherwise stores the value (TTL expiry is
outside this model) and returns the client result. -/
def RedisClient.set (st : RedisClientState) (key value : String)
    (ex : Option Nat) : Except PyError (RedisClientState × Bool) :=
  match st.client with
  | none => .error (.runtimeError redisNotConnectedMsg)
  | some c =>
    .ok ({ client := some ⟨(key, value) :: c.store.filter (fun e => decide (e.1 ≠ key))⟩ },
      true)

/-- RedisClient.get, redis_client.py lines 56-62: raises RuntimeError
when self.client is None, otherwise returns the stored value. -/
def RedisClient.get (st : RedisClientState) (key : String) :
    Except PyError (Option String) :=
  match st.client with
  | none => .error (.runtimeError redisNotConnectedMsg)
  | some c => .ok ((c.store.find? (fun e => decide (e.1 = key))).map (·.2))

/-- RedisClient.delete, redis_client.py lines 64-70: raises
RuntimeError when self.client is None, otherwise deletes the keys and
returns how many existed. -/
def RedisClient.delete (st : RedisClientState) (keys : List String) :
    Except PyError (RedisClientState × Nat) :=
  match st.client with
  | none => .error (.runtimeError redisNotConnectedMsg)
  | some c =>
    .ok ({ client := some ⟨c.store.filter (fun e => decide (e.1 ∉ keys))⟩ },
      (c.store.filter (fun e => decide (e.1 ∈ keys))).length)

/-- RedisClient.exists, redis_client.py lines 72-78: raises
RuntimeError when self.client is None, otherwise reports whether the
key is present. -/
def RedisClient.existsKey (st : RedisClientState) (key : String) :
    Except PyError Bool :=
  match st.client with
  | none => .error (.runtimeError redisNotConnectedMsg)
  | some c => .ok (c.store.any (fun e => decide (e.1 = key)))

/-- RedisClient.flushdb, redis_client.py lines 80-84: guarded by
if self.client, so on an unconnected instance it does nothing and
returns normally; otherwise it clears the database. -/
def RedisClient.flushdb (st : RedisClientState) : RedisClientState :=
  match st.client with
  | none => st
  | some _ => { client := some ⟨[]⟩ }

/-- C10 counterexample: after connect() followed by disconnect()
without reconnecting, self.client still references the client object,
so RedisClient.set does not raise RuntimeError, contradicting the claim
that every operation on such an instance raises RuntimeError. -/
theorem redis_set_after_disconnect_no_runtimeError :
    RedisClient.set
      (RedisClient.disconnect (RedisClient.connect ⟨[]⟩ ⟨none⟩)) "k" "v" none =
      .ok (⟨some ⟨[("k", "v")]⟩⟩, true) := by
  rfl

/-- C10 (amended): on a RedisClient instance on which connect() has
never been called (self.client is None), each of set, get, delete and
exists raises RuntimeError instead of dereferencing the absent
connection, while flushdb is a no-op that returns normally; after
disconnect() the client attribute remains set, so the guard does not
fire there. -/
theorem redis_unconnected_guards (st : RedisClientState)
    (h : st.client = none) (key value : String) (ex : Option Nat)
    (keys : List String) :
    RedisClient.set st key value ex = .error (.runtimeError redisNotConnectedMsg) ∧
    RedisClient.get st key = .error (.runtimeError redisNotConnectedMsg) ∧
    RedisClient.delete st keys = .error (.runtimeError redisNotConnectedMsg) ∧
    RedisClient.existsKey st key = .error (.runtimeError redisNotConnectedMsg) ∧
    RedisClient.flushdb st = st ∧
    (∀ server : RedisClientState,
        RedisClient.set (RedisClient.disconnect (RedisClient.connect ⟨[]⟩ server))
          key value ex ≠ .error (.runtimeError redisNotConnectedMsg)) := by
  refine ⟨?_, ?_, ?_, ?_, ?_, ?_⟩
  · simp [RedisClient.set, h]
  · simp [RedisClient.get, h]
  · simp [RedisClient.delete, h]
  · simp [RedisClient.existsKey, h]
  · simp [RedisClient.flushdb, h]
  · intro server
    simp [RedisClient.set, RedisClient.disconnect, RedisClient.connect]

/-- C10 witness: the amended theorem applied to the never-connected
initial state. -/
theorem redis_unconnected_guards_witness :
    RedisClient.set ⟨none⟩ "k" "v" none =
      .error (.runtimeError redisNotConnectedMsg) ∧
    RedisClient.get ⟨none⟩ "k" = .error (.runtimeError redisNotConnectedMsg) ∧
    RedisClient.delete ⟨none⟩ ["k"] = .error (.runtimeError redisNotConnectedMsg) ∧
    RedisClient.existsKey ⟨none⟩ "k" = .error (.runtimeError redisNotConnectedMsg) ∧
    RedisClient.flushdb ⟨none⟩ = ⟨none⟩ ∧
    (∀ server : RedisClientState,
        RedisClient.set (RedisClient.disconnect (RedisClient.connect ⟨[]⟩ server))
          "k" "v" none ≠ .error (.runtimeError redisNotConnectedMsg)) :=
  redis_unconnected_guards ⟨none⟩ rfl "k" "v" none ["k"]

end ERPSpec
